import Mathlib

/-!
Shallow embedding of the `monkey-lang` tree-walking evaluator
(`src/src/evaluator.rs`) together with the data model it consumes.

The evaluator source is translated function by function.  The supporting
crates (`crate::ast`, `crate::object`, `crate::enviroment`, `crate::builtin`)
are not present under `src/`; their definitions are modelled from the
specification (§3.1, §3.2, §3.4, §4.2, §4.3), which records their shapes and
the exact kind spellings and error messages.

Rust's `Rc<RefCell<Enviroment>>` sharing is modelled by a store (a list of
environments) addressed by index; a `Function` object captures the index of
its defining environment.  The recursive `eval` is modelled with a fuel
parameter: `Outcome.timeout` means the fuel ran out (the Rust code would
still be running), and `Outcome.crash` models a Rust panic (host crash).
Integer arithmetic follows release-profile Rust: `+`, `-`, `*` and unary
negation wrap modulo 2^64; division panics on a zero divisor and on
`i64::MIN / -1`; the array-index bound computation `index + 1` panics for
`index = i64::MAX` (overflow in debug builds, failed `usize` conversion in
release builds).
-/

-- Modelled from the spec §3.4: the syntax tree consumed by the evaluator
-- (`crate::ast`). Identifiers are their name strings.
mutual

inductive Expression where
  | identifier (name : String)
  | integerLiteral (value : Int)
  | stringLiteral (value : String)
  | boolean (value : Bool)
  | arrayLiteral (elements : List Expression)
  | hashLiteral (members : List (Expression × Expression))
  | indexE (left : Expression) (index : Expression)
  | prefixE (operator : String) (right : Expression)
  | infixE (operator : String) (left : Expression) (right : Expression)
  | ifE (condition : Expression) (consequence : BlockStatement)
      (alternative : Option BlockStatement)
  | call (function : Expression) (arguments : List Expression)
  | functionLiteral (parameters : List String) (body : BlockStatement)

inductive Statement where
  | letS (name : String) (value : Expression)
  | returnS (value : Expression)
  | expression (e : Expression)

inductive BlockStatement where
  | mk (statements : List Statement)

end

/-- The `Node` wrapper dispatched on by `Evaluator::eval`. -/
inductive Node where
  | program (statements : List Statement)
  | statement (s : Statement)
  | blockStatement (b : BlockStatement)
  | expression (e : Expression)

/-- Modelled from the spec §3.1: the runtime value (`crate::object::Object`).
A `function` carries its parameter names, body and the store index of its
captured binding context (the `Rc<RefCell<Enviroment>>` it shares).  A `hash`
is the map from stringified hash keys to values, kept as an association list
in insertion order. -/
inductive Object where
  | integer (value : Int)
  | boolean (value : Bool)
  | str (value : String)
  | null
  | array (elements : List Object)
  | hash (value : List (String × Object))
  | function (parameters : List String) (body : BlockStatement) (envIdx : Nat)
  | builtinFunction (name : String)
  | returnValue (value : Object)
  | runtimeError (message : String)

/-- Modelled from the spec §3.1: the `kind()` spellings, which appear
verbatim in error messages. -/
def Object.kind : Object → String
  | .integer _ => "INTEGER"
  | .boolean _ => "BOOLEAN"
  | .str _ => "STRING"
  | .null => "NULL"
  | .array _ => "ARRAY"
  | .hash _ => "HASH"
  | .function _ _ _ => "FUNCTION"
  | .builtinFunction _ => "BUILTIN"
  | .returnValue _ => "RETURN_VALUE"
  | .runtimeError _ => "ERROR"

/-- `Evaluator::is_error`: only a `RuntimeError` object counts. -/
def isError : Object → Bool
  | .runtimeError _ => true
  | _ => false

/-- `Evaluator::is_truthy`: Null is falsy, a Boolean is its flag, everything
else is truthy. -/
def isTruthy : Object → Bool
  | .null => false
  | .boolean b => b
  | _ => true

/-- Modelled from the spec §4.2 / §3.3: a binding context
(`crate::enviroment::Enviroment`): a name-to-value mapping plus an optional
parent reference.  The parent is a store index (shared reference). -/
structure Enviroment where
  vars : List (String × Object)
  parent : Option Nat

/-- The heap of shared `Rc<RefCell<Enviroment>>` cells, addressed by index. -/
abbrev Store := List Enviroment

/-- Lookup in one context's own mapping. -/
def varsGet : List (String × Object) → String → Option Object
  | [], _ => none
  | (k, w) :: rest, name => if k = name then some w else varsGet rest name

/-- Insert-or-replace in one context's own mapping (HashMap::insert). -/
def varsSet : List (String × Object) → String → Object → List (String × Object)
  | [], name, v => [(name, v)]
  | (k, w) :: rest, name, v =>
      if k = name then (k, v) :: rest else (k, w) :: varsSet rest name v

/-- Walk the parent chain looking up a name; the fuel bounds the chain length
(a chain in a store of n cells visits at most n distinct cells). -/
def envGetAux : Nat → Store → Nat → String → Option Object
  | 0, _, _, _ => none
  | fuel + 1, s, i, name =>
      match s[i]? with
      | none => none
      | some env =>
          match varsGet env.vars name with
          | some v => some v
          | none =>
              match env.parent with
              | some p => envGetAux fuel s p name
              | none => none

/-- Modelled from the spec §4.2: `get(name)` walks the parent chain. -/
def envGet (s : Store) (i : Nat) (name : String) : Option Object :=
  envGetAux (s.length + 1) s i name

/-- Modelled from the spec §4.2: `set(name, value)` writes to the addressed
context only. -/
def envSet (s : Store) (i : Nat) (name : String) (v : Object) : Store :=
  match s[i]? with
  | some env => s.set i ⟨varsSet env.vars name v, env.parent⟩
  | none => s

/-- Modelled from the spec §4.3: the names registered in the built-in
registry (`Builtin::function_exists`). -/
def builtinExists (name : String) : Bool :=
  name = "len" || name = "first" || name = "last" || name = "rest" ||
    name = "push" || name = "puts"

/-- Modelled from the spec §4.3: `Builtin::try_function`; `none` when the
name is not registered.  `puts` returns Null (its output is not modelled). -/
def tryFunction (name : String) (args : List Object) : Option Object :=
  match name with
  | "len" =>
      some (match args with
        | [.str s] => .integer s.utf8ByteSize
        | [.array elements] => .integer elements.length
        | [a] => .runtimeError ("argument to `len` not supported, got " ++ a.kind)
        | _ => .runtimeError
            ("wrong number of arguments. got=" ++ toString args.length ++ ", want=1"))
  | "first" =>
      some (match args with
        | [.array elements] => elements.headD .null
        | [a] => .runtimeError ("argument to `first` not supported, got " ++ a.kind)
        | _ => .runtimeError
            ("wrong number of arguments. got=" ++ toString args.length ++ ", want=1"))
  | "last" =>
      some (match args with
        | [.array elements] => elements.getLastD .null
        | [a] => .runtimeError ("argument to `last` not supported, got " ++ a.kind)
        | _ => .runtimeError
            ("wrong number of arguments. got=" ++ toString args.length ++ ", want=1"))
  | "rest" =>
      some (match args with
        | [.array []] => .null
        | [.array (_ :: rest)] => .array rest
        | [a] => .runtimeError ("argument to `rest` not supported, got " ++ a.kind)
        | _ => .runtimeError
            ("wrong number of arguments. got=" ++ toString args.length ++ ", want=1"))
  | "push" =>
      some (match args with
        | [.array elements, v] => .array (elements ++ [v])
        | [a, _] => .runtimeError ("argument to `push` not supported, got " ++ a.kind)
        | _ => .runtimeError
            ("wrong number of arguments. got=" ++ toString args.length ++ ", want=2"))
  | "puts" => some .null
  | _ => none

/-- Modelled from the spec §3.2: `hash_key().stringify()` for key-eligible
values — kind-letter prefix plus a canonical rendering; `none` for a value
that is not key-eligible. -/
def hashKeyStringify : Object → Option String
  | .str s => some ("S:" ++ s)
  | .integer n => some ("I:" ++ toString n)
  | .boolean b => some ("B:" ++ (if b then "true" else "false"))
  | _ => none

/-- Modelled from the spec §4.1.2(4) and design note (b): structural equality
for the primitive kinds; equality of the remaining kinds is unspecified by
the source (the spec permits returning false), modelled as false. -/
def objEq : Object → Object → Bool
  | .integer a, .integer b => a == b
  | .boolean a, .boolean b => a == b
  | .str a, .str b => a == b
  | .null, .null => true
  | _, _ => false

/-- Signed 64-bit bounds (`i64::MIN`, `i64::MAX`). -/
def i64Min : Int := -(2 ^ 63)

/-- The largest `i64` value. -/
def i64Max : Int := 2 ^ 63 - 1

/-- Two's-complement wrap-around into the `i64` range (release-profile Rust
arithmetic). -/
def wrap64 (z : Int) : Int := (z + 2 ^ 63) % 2 ^ 64 - 2 ^ 63

/-- The result of a (fueled) evaluation step.  `ok` carries the produced
object and the store after the step; `crash` models a Rust panic; `timeout`
means the fuel was exhausted before the Rust code would have returned. -/
inductive Outcome where
  | ok (value : Object) (store : Store)
  | crash
  | timeout

/-- The produced object, when evaluation completed normally. -/
def Outcome.valueOf : Outcome → Option Object
  | .ok v _ => some v
  | _ => none

/-- The store after evaluation, when evaluation completed normally. -/
def Outcome.storeOf : Outcome → Option Store
  | .ok _ s => some s
  | _ => none

/-- The result of `eval_expressions`: the evaluated objects (with the Rust
convention that an error is returned as a singleton list) or a propagated
crash/timeout. -/
inductive ResList where
  | ok (objs : List Object) (store : Store)
  | crash
  | timeout

/-- An evaluation function for expressions, threaded through the helpers in
place of the `self.eval` calls of the Rust methods. -/
abbrev EvalFn := Expression → Store → Nat → Outcome

/-- An evaluation function for statements. -/
abbrev StmtFn := Statement → Store → Nat → Outcome

/-- An evaluation function for block statements. -/
abbrev BlockFn := BlockStatement → Store → Nat → Outcome

/-- `Evaluator::eval_expressions`: reduce the expressions left to right; on
the first error return only that error (`vec![evaluated]`). -/
def evalExpressionsAux (ev : EvalFn) :
    List Expression → List Object → Store → Nat → ResList
  | [], acc, s, _ => .ok acc.reverse s
  | e :: rest, acc, s, i =>
      match ev e s i with
      | .ok v s' =>
          if isError v then .ok [v] s'
          else evalExpressionsAux ev rest (v :: acc) s' i
      | .crash => .crash
      | .timeout => .timeout

/-- Entry point for `eval_expressions` (empty accumulator). -/
def evalExpressions (ev : EvalFn) (exps : List Expression) (s : Store)
    (i : Nat) : ResList :=
  evalExpressionsAux ev exps [] s i

/-- `Evaluator::eval_program`: iterate the statements, adopting each result;
a return carrier is unwrapped one layer and returned, an error is returned
as is; `result` starts as Null. -/
def evalProgramAux (evs : StmtFn) :
    List Statement → Object → Store → Nat → Outcome
  | [], result, s, _ => .ok result s
  | st :: rest, _, s, i =>
      match evs st s i with
      | .ok r s' =>
          match r with
          | .returnValue v => .ok v s'
          | .runtimeError m => .ok (.runtimeError m) s'
          | _ => evalProgramAux evs rest r s' i
      | .crash => .crash
      | .timeout => .timeout

/-- `Evaluator::eval_block_statement`: like the program loop, but a return
carrier is returned unchanged (not unwrapped). -/
def evalBlockAux (evs : StmtFn) :
    List Statement → Object → Store → Nat → Outcome
  | [], result, s, _ => .ok result s
  | st :: rest, _, s, i =>
      match evs st s i with
      | .ok r s' =>
          match r with
          | .returnValue v => .ok (.returnValue v) s'
          | .runtimeError m => .ok (.runtimeError m) s'
          | _ => evalBlockAux evs rest r s' i
      | .crash => .crash
      | .timeout => .timeout

/-- `Evaluator::unwrap_return_value`: strip exactly one return-carrier
layer. -/
def unwrapReturnValue : Object → Object
  | .returnValue v => v
  | obj => obj

/-- `Evaluator::extend_function_env` followed by the body evaluation of
`Evaluator::apply_function`.  A fresh context whose parent is the function's
captured context is allocated at the end of the store; each parameter is
bound positionally (`args[i]` — when there are fewer arguments than
parameters the Rust index is out of bounds and the host panics).  The body
runs as a block in the fresh context; the result is unwrapped once.  The
caller's current context is restored implicitly (the caller keeps its own
index). -/
def applyFunction (evb : BlockFn) (params : List String) (body : BlockStatement)
    (envIdx : Nat) (args : List Object) (s : Store) : Outcome :=
  if args.length < params.length then .crash
  else
    let newVars := (params.zip args).foldl (fun vars pa => varsSet vars pa.1 pa.2) []
    let s' := s ++ [⟨newVars, some envIdx⟩]
    match evb body s' s.length with
    | .ok rv s'' => .ok (unwrapReturnValue rv) s''
    | .crash => .crash
    | .timeout => .timeout

/-- `Evaluator::eval_index_expression`.  For an Array indexed by an Integer
the Rust code tests `index < 0 || len < (index + 1).try_into().unwrap()`;
for `index = i64::MAX` the `index + 1` computation panics (debug) or wraps
negative so the `usize` conversion unwrap panics (release) — modelled as a
crash. -/
def evalIndexExpression (left index : Object) (s : Store) : Outcome :=
  match left with
  | .array elements =>
      match index with
      | .integer idx =>
          if idx < 0 then .ok .null s
          else if idx = i64Max then .crash
          else if elements.length < (idx + 1).toNat then .ok .null s
          else .ok (elements.getD idx.toNat .null) s
      | _ => .ok (.runtimeError ("index is not a integer: " ++ index.kind)) s
  | _ => .ok (.runtimeError ("index operator not supported: " ++ left.kind)) s

/-- `Evaluator::eval_bang_operator_expression`. -/
def evalBangOperatorExpression : Object → Object
  | .boolean b => if b then .boolean false else .boolean true
  | .null => .null
  | _ => .boolean false

/-- `Evaluator::eval_minux_operator_expression` (name as in the source);
negation wraps (release profile). -/
def evalMinuxOperatorExpression : Object → Object
  | .integer v => .integer (wrap64 (-v))
  | right => .runtimeError ("unknown operator: -" ++ right.kind)

/-- `Evaluator::eval_prefix_expression`. -/
def evalPrefixExpression (operator : String) (right : Object) : Object :=
  if operator = "!" then evalBangOperatorExpression right
  else if operator = "-" then evalMinuxOperatorExpression right
  else .runtimeError ("unknown operator: " ++ operator ++ right.kind)

/-- `Evaluator::eval_string_infix_expression`. -/
def evalStringInfixExpression (operator : String) (left right : String) : Object :=
  if operator = "+" then .str (left ++ right)
  else .runtimeError ("unknown operator: STRING " ++ operator ++ " STRING")

/-- `Evaluator::eval_integer_infix_expression`.  `+`, `-`, `*` wrap
(release profile); `/` is Rust `i64` division, which panics on a zero
divisor and on `i64::MIN / -1` — modelled as `none`. -/
def evalIntegerInfixExpression (operator : String) (l r : Int) : Option Object :=
  if operator = "+" then some (.integer (wrap64 (l + r)))
  else if operator = "-" then some (.integer (wrap64 (l - r)))
  else if operator = "*" then some (.integer (wrap64 (l * r)))
  else if operator = "/" then
    if r = 0 ∨ (l = i64Min ∧ r = -1) then none
    else some (.integer (Int.tdiv l r))
  else if operator = "<" then some (.boolean (decide (l < r)))
  else if operator = ">" then some (.boolean (decide (r < l)))
  else if operator = "==" then some (.boolean (l == r))
  else if operator = "!=" then some (.boolean (l != r))
  else some (.runtimeError ("unknown operator: INTEGER " ++ operator ++ " INTEGER"))

/-- `Evaluator::eval_infix_expression`: kind mismatch first, then the
integer and string tables, then `==`/`!=` on structural equality, then the
unknown-operator error.  `none` models the division panic. -/
def evalInfixExpression (operator : String) (left right : Object) : Option Object :=
  if left.kind ≠ right.kind then
    some (.runtimeError
      ("type mismatch: " ++ left.kind ++ " " ++ operator ++ " " ++ right.kind))
  else
    match left, right with
    | .integer l, .integer r => evalIntegerInfixExpression operator l r
    | .str l, .str r => some (evalStringInfixExpression operator l r)
    | _, _ =>
        if operator = "==" then some (.boolean (objEq left right))
        else if operator = "!=" then some (.boolean (!objEq left right))
        else some (.runtimeError
          ("unknown operator: " ++ left.kind ++ " " ++ operator ++ " " ++ right.kind))

/-- `Evaluator::eval_hash_literal`: for each pair in source order evaluate
the key, short-circuit on error, reject a non-key-eligible key, evaluate the
value, short-circuit on error, insert (overwriting a duplicate key). -/
def evalHashLiteralAux (ev : EvalFn) :
    List (Expression × Expression) → List (String × Object) → Store → Nat → Outcome
  | [], acc, s, _ => .ok (.hash acc) s
  | member :: rest, acc, s, i =>
      match ev member.1 s i with
      | .ok key s' =>
          if isError key then .ok key s'
          else
            match hashKeyStringify key with
            | none => .ok (.runtimeError
                ("only string, integer and boolean can be hash key, found " ++
                  key.kind)) s'
            | some hashKey =>
                match ev member.2 s' i with
                | .ok value s'' =>
                    if isError value then .ok value s''
                    else evalHashLiteralAux ev rest (varsSet acc hashKey value) s'' i
                | .crash => .crash
                | .timeout => .timeout
      | .crash => .crash
      | .timeout => .timeout

/-- `Evaluator::eval_indentifier` (name as in the source): context-chain
lookup, then the built-in registry, then the unknown-identifier error. -/
def evalIndentifier (s : Store) (i : Nat) (name : String) : Object :=
  match envGet s i name with
  | some v => v
  | none =>
      if builtinExists name then .builtinFunction name
      else .runtimeError ("identifier not found: " ++ name)

/-- `Evaluator::eval_if_expression`. -/
def evalIfExpression (ev : EvalFn) (evb : BlockFn) (condition : Expression)
    (consequence : BlockStatement) (alternative : Option BlockStatement)
    (s : Store) (i : Nat) : Outcome :=
  match ev condition s i with
  | .ok c s' =>
      if isError c then .ok c s'
      else if isTruthy c then evb consequence s' i
      else
        match alternative with
        | some alt => evb alt s' i
        | none => .ok .null s'
  | .crash => .crash
  | .timeout => .timeout

/-- One unfolding of `Evaluator::eval`, with the recursive occurrences of
`self.eval` abstracted as `recur`.  The current binding context is the store
index `i` (the `self.env` field); only function application changes it, and
it restores the caller's index by construction. -/
def evalStep (recur : Node → Store → Nat → Outcome) (node : Node) (s : Store)
    (i : Nat) : Outcome :=
  let ev : EvalFn := fun e s i => recur (.expression e) s i
  let evs : StmtFn := fun st s i => recur (.statement st) s i
  let evb : BlockFn := fun b s i => recur (.blockStatement b) s i
  match node with
  | .program stmts => evalProgramAux evs stmts .null s i
  | .statement (.expression e) => ev e s i
  | .statement (.returnS e) =>
      match ev e s i with
      | .ok v s' => if isError v then .ok v s' else .ok (.returnValue v) s'
      | .crash => .crash
      | .timeout => .timeout
  | .statement (.letS name e) =>
      match ev e s i with
      | .ok v s' => if isError v then .ok v s' else .ok v (envSet s' i name v)
      | .crash => .crash
      | .timeout => .timeout
  | .blockStatement (.mk stmts) => evalBlockAux evs stmts .null s i
  | .expression (.identifier name) => .ok (evalIndentifier s i name) s
  | .expression (.integerLiteral n) => .ok (.integer n) s
  | .expression (.stringLiteral v) => .ok (.str v) s
  | .expression (.arrayLiteral elems) =>
      match evalExpressions ev elems s i with
      | .ok objs s' =>
          match objs with
          | [v] => if isError v then .ok v s' else .ok (.array objs) s'
          | _ => .ok (.array objs) s'
      | .crash => .crash
      | .timeout => .timeout
  | .expression (.hashLiteral members) => evalHashLiteralAux ev members [] s i
  | .expression (.indexE leftE idxE) =>
      match ev leftE s i with
      | .ok left s' =>
          if isError left then .ok left s'
          else
            match ev idxE s' i with
            | .ok index s'' =>
                if isError index then .ok index s''
                else evalIndexExpression left index s''
            | .crash => .crash
            | .timeout => .timeout
      | .crash => .crash
      | .timeout => .timeout
  | .expression (.boolean b) => .ok (.boolean b) s
  | .expression (.functionLiteral params body) => .ok (.function params body i) s
  | .expression (.prefixE op r) =>
      match ev r s i with
      | .ok right s' =>
          if isError right then .ok right s'
          else .ok (evalPrefixExpression op right) s'
      | .crash => .crash
      | .timeout => .timeout
  | .expression (.infixE op le re) =>
      match ev le s i with
      | .ok left s' =>
          if isError left then .ok left s'
          else
            match ev re s' i with
            | .ok right s'' =>
                if isError right then .ok right s''
                else
                  match evalInfixExpression op left right with
                  | some v => .ok v s''
                  | none => .crash
            | .crash => .crash
            | .timeout => .timeout
      | .crash => .crash
      | .timeout => .timeout
  | .expression (.ifE c cons alt) => evalIfExpression ev evb c cons alt s i
  | .expression (.call fe argEs) =>
      match ev fe s i with
      | .ok func s' =>
          if isError func then .ok func s'
          else
            match func with
            | .function params body envIdx =>
                (match evalExpressions ev argEs s' i with
                | .ok args s'' =>
                    (match args with
                    | [a] =>
                        if isError a then .ok a s''
                        else applyFunction evb params body envIdx args s''
                    | _ => applyFunction evb params body envIdx args s'')
                | .crash => .crash
                | .timeout => .timeout)
            | .builtinFunction name =>
                (match evalExpressions ev argEs s' i with
                | .ok args s'' =>
                    (match args with
                    | [a] =>
                        if isError a then .ok a s''
                        else
                          (match tryFunction name args with
                          | some result => .ok result s''
                          | none => .ok (.runtimeError ("Not a function: " ++ name)) s'')
                    | _ =>
                        (match tryFunction name args with
                        | some result => .ok result s''
                        | none => .ok (.runtimeError ("Not a function: " ++ name)) s''))
                | .crash => .crash
                | .timeout => .timeout)
            | _ => .ok (.runtimeError ("Not a function: " ++ func.kind)) s'
      | .crash => .crash
      | .timeout => .timeout

/-- The fueled evaluator: `evalE fuel` unfolds `Evaluator::eval` at most
`fuel` times, answering `timeout` when the fuel runs out. -/
def evalE : Nat → Node → Store → Nat → Outcome
  | 0 => fun _ _ _ => .timeout
  | fuel + 1 => evalStep (evalE fuel)

/-- The seed store: one empty context (`Enviroment::default()`), the
evaluator's initial `self.env`. -/
def initStore : Store := [⟨[], none⟩]

/-- The closure test from the spec:
`let newAdder = fn(x) { fn(y) { x + y } }; let addTwo = newAdder(2); addTwo(2)`. -/
def newAdderProg : List Statement :=
  [ .letS "newAdder" (.functionLiteral ["x"]
      (.mk [.expression (.functionLiteral ["y"]
        (.mk [.expression (.infixE "+" (.identifier "x") (.identifier "y"))]))])),
    .letS "addTwo" (.call (.identifier "newAdder") [.integerLiteral 2]),
    .expression (.call (.identifier "addTwo") [.integerLiteral 2]) ]

/-- A call whose body reduces to a doubly wrapped return carrier:
`fn(){ return if (true) { return 7; }; }()`.  Application strips exactly one
carrier layer, so the call's value is still a carrier. -/
def doubleUnwrapCall : Expression :=
  .call (.functionLiteral []
    (.mk [.returnS (.ifE (.boolean true) (.mk [.returnS (.integerLiteral 7)]) none)])) []

/-- A program separating lexical from dynamic scope:
`let x = 10; let f = fn(){ x }; let g = fn(x){ f() }; g(99)`.  With the
fresh frame parented on the function's captured context the answer is 10;
parenting on the caller's frame would yield 99. -/
def dynScopeProg : List Statement :=
  [ .letS "x" (.integerLiteral 10),
    .letS "f" (.functionLiteral [] (.mk [.expression (.identifier "x")])),
    .letS "g" (.functionLiteral ["x"] (.mk [.expression (.call (.identifier "f") [])])),
    .expression (.call (.identifier "g") [.integerLiteral 99]) ]

/-- The lexical-scope test from the spec:
`let a = 1; let f = fn(){ a }; let a = 2; f()`. -/
def shadowProg : List Statement :=
  [ .letS "a" (.integerLiteral 1),
    .letS "f" (.functionLiteral [] (.mk [.expression (.identifier "a")])),
    .letS "a" (.integerLiteral 2),
    .expression (.call (.identifier "f") []) ]

/-- The body of the self-recursive function `fn(){ f() }`. -/
def recBody : BlockStatement := .mk [.expression (.call (.identifier "f") [])]

/-- The call expression `f()`. -/
def callF : Expression := .call (.identifier "f") []

/-- The function object produced for `fn(){ f() }` defined in the seed
context (store index 0). -/
def fObj : Object := .function [] recBody 0

/-- The recursive program `let f = fn(){ f() }; f()`. -/
def recProg : List Statement :=
  [ .letS "f" (.functionLiteral [] recBody), .expression callF ]

/-- The seed context after `let f = fn(){ f() }` has run. -/
def env0rec : Enviroment := ⟨[("f", fObj)], none⟩

/-- Divergence of the recursive program `let f = fn(){ f() }; f()` from the
seed context: every fuel bound is exhausted, so no finite unfolding of
`Evaluator::eval` returns — the Rust recursion never terminates. -/
def recProgDiverges : Prop :=
  ∀ fuel, evalE fuel (.program recProg) initStore 0 = .timeout

/-- A program whose second Let has an erroring right-hand side that itself
rebinds the name before erroring:
`let a = 1; let a = if (true) { let a = 99; foobar };`. -/
def letErrProg : List Statement :=
  [ .letS "a" (.integerLiteral 1),
    .letS "a" (.ifE (.boolean true)
      (.mk [.letS "a" (.integerLiteral 99), .expression (.identifier "foobar")]) none) ]

/-- The top-level statement `return if (true) { return 5; };`: its operand
reduces to a return carrier, so the Return rule wraps a carrier in a
carrier. -/
def carrierReturnProg : List Statement :=
  [ .returnS (.ifE (.boolean true) (.mk [.returnS (.integerLiteral 5)]) none) ]

/-- The array literal `[1, 2, 3]`. -/
def arr123 : Expression :=
  .arrayLiteral [.integerLiteral 1, .integerLiteral 2, .integerLiteral 3]

/-- Looking up `f` from the fresh frame allocated for a call to `fn(){ f() }`:
the frame's own mapping is empty, so the lookup walks to the captured parent
(store index 0) and finds the function there. -/
theorem envGetChild (tl : List Enviroment) :
    envGet (env0rec :: (tl ++ [⟨[], some 0⟩])) (tl.length + 1) "f" = some fObj := by
  simp only [envGet, List.length_cons, List.length_append, List.length_singleton]
  simp only [envGetAux, List.getElem?_cons_succ, List.getElem?_concat_length,
    varsGet, env0rec]
  simp [envGetAux, varsGet]

/-- In any store whose cell 0 binds `f` to the self-calling closure and from
any context that resolves `f` to it, evaluating `f()` exhausts every fuel:
each call consumes fuel, allocates a child frame of cell 0, and re-enters
`f()`. -/
theorem recCallTimeout (fuel : Nat) : ∀ (s : Store) (i : Nat),
    s[0]? = some env0rec → envGet s i "f" = some fObj →
    evalE fuel (.expression callF) s i = .timeout := by
  induction fuel using Nat.strong_induction_on with
  | _ fuel ih =>
    intro s i h0 hf
    match fuel with
    | 0 => rfl
    | 1 => rfl
    | n + 2 =>
      obtain ⟨hd, tl, rfl⟩ : ∃ hd tl, s = hd :: tl := by
        cases s with
        | nil => simp at h0
        | cons hd tl => exact ⟨hd, tl, rfl⟩
      have hhd : hd = env0rec := by simpa using h0
      subst hhd
      have hsub : evalBlockAux (fun st s i => evalE n (.statement st) s i)
          [.expression (.call (.identifier "f") [])] .null
          (env0rec :: (tl ++ [⟨[], some 0⟩])) (tl.length + 1) = .timeout := by
        match n with
        | 0 => rfl
        | m + 1 =>
          have hm := ih m (by omega) (env0rec :: (tl ++ [⟨[], some 0⟩]))
            (tl.length + 1) (by simp) (envGetChild tl)
          simp only [callF] at hm
          simp [evalBlockAux, evalE, evalStep, hm]
      simp [evalE, evalStep, callF, evalIndentifier, hf, fObj, isError,
        evalExpressions, evalExpressionsAux, applyFunction, recBody, hsub]

/-- The program loop propagates a timeout of its first statement. -/
theorem evalProgramAux_timeout (evs : StmtFn) (st : Statement)
    (rest : List Statement) (r : Object) (s : Store) (i : Nat)
    (h : evs st s i = .timeout) :
    evalProgramAux evs (st :: rest) r s i = .timeout := by
  simp [evalProgramAux, h]

/-- The whole recursive program `let f = fn(){ f() }; f()` exhausts every
fuel: no finite unfolding of `Evaluator::eval` returns. -/
theorem recProgTimeoutAll (fuel : Nat) :
    evalE fuel (.program recProg) initStore 0 = .timeout := by
  match fuel with
  | 0 => rfl
  | 1 => rfl
  | 2 => rfl
  | n + 3 =>
    have h : evalE (n + 1) (.expression callF) [env0rec] 0 = .timeout :=
      recCallTimeout (n + 1) [env0rec] 0 (by rfl) (by rfl)
    show evalProgramAux (fun st s i => evalE (n + 2) (.statement st) s i)
        [.expression callF] fObj [env0rec] 0 = .timeout
    exact evalProgramAux_timeout _ _ _ _ _ _ h

/-- C1: the claim says eval never crashes the host, in particular on integer
division and on an argument-count mismatch.  The code does crash: `1 / 0`
and `i64::MIN / -1` panic inside `eval_integer_infix_expression`, and
calling `fn(x){ x }` with zero arguments panics at the unchecked `args[i]`
index in `extend_function_env`. -/
theorem c1_eval_crashes_on_division_and_arity :
    evalE 9 (.expression (.infixE "/" (.integerLiteral 1) (.integerLiteral 0)))
      initStore 0 = .crash ∧
    evalE 9 (.expression (.infixE "/" (.integerLiteral i64Min) (.integerLiteral (-1))))
      initStore 0 = .crash ∧
    evalE 20 (.expression (.call
      (.functionLiteral ["x"] (.mk [.expression (.identifier "x")])) []))
      initStore 0 = .crash :=
  ⟨rfl, rfl, rfl⟩

/-- C2 counterexample: the top-level result of
`return if (true) { return 5; };` has kind RETURN_VALUE — the Return rule
wraps the operand's carrier in a second carrier and the Program rule strips
only one layer, so a carrier surfaces. -/
theorem c2_counterexample_top_level_return_carrier :
    Outcome.valueOf (evalE 20 (.program carrierReturnProg) initStore 0) =
      some (.returnValue (.integer 5)) ∧
    Object.kind (.returnValue (.integer 5)) = "RETURN_VALUE" :=
  ⟨rfl, rfl⟩

/-- C2 (amended): when a statement reduces to a return carrier, the Program
rule unwraps exactly one layer and returns the inner value immediately,
while the Block rule returns the carrier itself immediately. -/
theorem c2_program_unwraps_block_keeps_carrier :
    ∀ (fuel : Nat) (st : Statement) (rest : List Statement) (s s' : Store)
      (i : Nat) (v : Object),
      evalE fuel (.statement st) s i = .ok (.returnValue v) s' →
      evalE (fuel + 1) (.program (st :: rest)) s i = .ok v s' ∧
      evalE (fuel + 1) (.blockStatement (.mk (st :: rest))) s i =
        .ok (.returnValue v) s' := by
  intro fuel st rest s s' i v h
  constructor
  · show evalProgramAux (fun st s i => evalE fuel (.statement st) s i)
      (st :: rest) .null s i = .ok v s'
    simp [evalProgramAux, h]
  · show evalBlockAux (fun st s i => evalE fuel (.statement st) s i)
      (st :: rest) .null s i = .ok (.returnValue v) s'
    simp [evalBlockAux, h]

/-- C2 witness: `return 5;` at program level yields 5, at block level the
carrier. -/
theorem c2_program_unwraps_block_keeps_carrier_witness :
    evalE 6 (.program [.returnS (.integerLiteral 5)]) initStore 0 =
      .ok (.integer 5) initStore ∧
    evalE 6 (.blockStatement (.mk [.returnS (.integerLiteral 5)])) initStore 0 =
      .ok (.returnValue (.integer 5)) initStore :=
  c2_program_unwraps_block_keeps_carrier 5 (.returnS (.integerLiteral 5)) []
    initStore initStore 0 (.integer 5) (by rfl)

/-- C3 counterexample: the claim's ordering would make `5(foobar)` report
the argument's failure `identifier not found: foobar`; the code instead
answers `Not a function: INTEGER`, showing the callee's kind is inspected
before any argument is evaluated. -/
theorem c3_counterexample_callee_checked_first :
    Outcome.valueOf (evalE 9 (.expression
      (.call (.integerLiteral 5) [.identifier "foobar"])) initStore 0) =
      some (.runtimeError "Not a function: INTEGER") ∧
    "Not a function: INTEGER" ≠ "identifier not found: foobar" :=
  ⟨rfl, by decide⟩

/-- C3 (amended): dispatch on the callee's kind happens before argument
evaluation: a callee that is neither a Function nor a Builtin yields
`Not a function: <KIND>` with the arguments untouched; when the callee is a
Function the arguments are evaluated left-to-right with the Array-literal
short-circuit rule. -/
theorem c3_dispatch_before_argument_evaluation :
    (∀ (fuel : Nat) (fe : Expression) (argEs : List Expression) (s s' : Store)
      (i : Nat) (func : Object),
      evalE fuel (.expression fe) s i = .ok func s' →
      isError func = false →
      (∀ p b e, func ≠ .function p b e) →
      (∀ n, func ≠ .builtinFunction n) →
      evalE (fuel + 1) (.expression (.call fe argEs)) s i =
        .ok (.runtimeError ("Not a function: " ++ func.kind)) s') ∧
    Outcome.valueOf (evalE 20 (.expression (.call
      (.functionLiteral ["x", "y"] (.mk [.expression (.identifier "x")]))
      [.identifier "foobar", .identifier "boom"])) initStore 0) =
      some (.runtimeError "identifier not found: foobar") := by
  constructor
  · intro fuel fe argEs s s' i func h he hf hb
    show evalStep (evalE fuel) (.expression (.call fe argEs)) s i = _
    simp only [evalStep, h, he]
    cases func
    case function p b e => exact absurd rfl (hf p b e)
    case builtinFunction n => exact absurd rfl (hb n)
    case runtimeError m => simp [isError] at he
    all_goals rfl
  · rfl

/-- C3 witness: `5(foobar)` resolves the callee to Integer 5 and reports the
non-callable error without evaluating the argument. -/
theorem c3_dispatch_before_argument_evaluation_witness :
    evalE 10 (.expression (.call (.integerLiteral 5) [.identifier "foobar"]))
      initStore 0 = .ok (.runtimeError "Not a function: INTEGER") initStore :=
  c3_dispatch_before_argument_evaluation.1 9 (.integerLiteral 5)
    [.identifier "foobar"] initStore initStore 0 (.integer 5) (by rfl) (by rfl)
    (fun _ _ _ h => Object.noConfusion h) (fun _ h => Object.noConfusion h)

/-- C4: function application binds parameters in a fresh frame parented on
the function's captured context (the newAdder closure yields 4 and the
lexical/dynamic separation program yields 10, the lexical answer) and strips
exactly one return-carrier layer (a doubly wrapped carrier survives one
application as a single carrier). -/
theorem c4_application_lexical_parent_unwraps_once :
    Outcome.valueOf (evalE 50 (.program newAdderProg) initStore 0) =
      some (.integer 4) ∧
    Outcome.valueOf (evalE 50 (.program dynScopeProg) initStore 0) =
      some (.integer 10) ∧
    Outcome.valueOf (evalE 50 (.expression doubleUnwrapCall) initStore 0) =
      some (.returnValue (.integer 7)) :=
  ⟨rfl, rfl, rfl⟩

/-- C5: a function captures its defining context by shared reference, so
`let a = 1; let f = fn(){ a }; let a = 2; f()` yields 2, the value written
after capture. -/
theorem c5_closure_observes_later_mutation :
    Outcome.valueOf (evalE 50 (.program shadowProg) initStore 0) =
      some (.integer 2) :=
  rfl

/-- C6 counterexample: evaluation of `let f = fn(){ f() }; f()` never
returns — the fueled evaluator times out for every fuel, refuting the claim
that eval terminates on every structurally finite input. -/
theorem c6_counterexample_recursive_program_diverges : recProgDiverges :=
  recProgTimeoutAll

/-- C6 (amended): eval does not terminate on every structurally finite
input: whenever `f` resolves to the self-calling closure, evaluating `f()`
exhausts every fuel; straight-line programs such as `1 + 2` do terminate. -/
theorem c6_recursive_call_diverges_straightline_terminates :
    (∀ (fuel : Nat) (s : Store) (i : Nat),
      s[0]? = some env0rec → envGet s i "f" = some fObj →
      evalE fuel (.expression callF) s i = .timeout) ∧
    Outcome.valueOf (evalE 9 (.program
      [.expression (.infixE "+" (.integerLiteral 1) (.integerLiteral 2))])
      initStore 0) = some (.integer 3) :=
  ⟨fun fuel => recCallTimeout fuel, rfl⟩

/-- C6 witness: with `f` bound to the self-calling closure in the seed
context, `f()` times out at fuel 5. -/
theorem c6_recursive_call_diverges_witness :
    evalE 5 (.expression callF) [env0rec] 0 = .timeout :=
  c6_recursive_call_diverges_straightline_terminates.1 5 [env0rec] 0
    (by rfl) (by rfl)

/-- C7: indexing `[1, 2, 3]` behaves as claimed for negative, in-range,
out-of-range, non-integer and non-array cases, but at index `i64::MAX` the
bound computation `index + 1` makes the host panic instead of returning
Null — the failing input of the code bug. -/
theorem c7_index_expression_eval :
    evalE 20 (.expression (.indexE arr123 (.integerLiteral i64Max)))
      initStore 0 = .crash ∧
    evalE 20 (.expression (.indexE arr123 (.integerLiteral (-1))))
      initStore 0 = .ok .null initStore ∧
    evalE 20 (.expression (.indexE arr123 (.integerLiteral 3)))
      initStore 0 = .ok .null initStore ∧
    Outcome.valueOf (evalE 20 (.expression (.indexE arr123
      (.infixE "+" (.integerLiteral 1) (.integerLiteral 1)))) initStore 0) =
      some (.integer 3) ∧
    Outcome.valueOf (evalE 20 (.expression (.indexE arr123
      (.stringLiteral "x"))) initStore 0) =
      some (.runtimeError "index is not a integer: STRING") ∧
    Outcome.valueOf (evalE 20 (.expression (.indexE (.integerLiteral 5)
      (.integerLiteral 0))) initStore 0) =
      some (.runtimeError "index operator not supported: INTEGER") :=
  ⟨rfl, rfl, rfl, rfl, rfl, rfl⟩

/-- C8: a non-key-eligible key aborts the hash literal with the claimed
error before the pair's value or any later pair is evaluated (both contain
`1 / 0`, which would crash the host if reached); an erroring key or value
propagates its error; eligible keys are inserted in source order and a
duplicate key overwrites the earlier entry. -/
theorem c8_hash_literal_eval :
    Outcome.valueOf (evalE 20 (.expression (.hashLiteral
      [(.integerLiteral 5, .integerLiteral 1),
       (.arrayLiteral [], .infixE "/" (.integerLiteral 1) (.integerLiteral 0)),
       (.infixE "/" (.integerLiteral 1) (.integerLiteral 0), .integerLiteral 3)]))
      initStore 0) =
      some (.runtimeError "only string, integer and boolean can be hash key, found ARRAY") ∧
    Outcome.valueOf (evalE 20 (.expression (.hashLiteral
      [(.identifier "foobar", .integerLiteral 1)])) initStore 0) =
      some (.runtimeError "identifier not found: foobar") ∧
    Outcome.valueOf (evalE 20 (.expression (.hashLiteral
      [(.integerLiteral 1, .identifier "foobar"),
       (.integerLiteral 2, .infixE "/" (.integerLiteral 1) (.integerLiteral 0))]))
      initStore 0) =
      some (.runtimeError "identifier not found: foobar") ∧
    evalE 20 (.expression (.hashLiteral
      [(.integerLiteral 1, .integerLiteral 2),
       (.integerLiteral 1, .integerLiteral 3)])) initStore 0 =
      .ok (.hash [("I:1", .integer 3)]) initStore ∧
    evalE 20 (.expression (.hashLiteral
      [(.stringLiteral "a", .integerLiteral 1),
       (.boolean true, .integerLiteral 2),
       (.integerLiteral 3, .integerLiteral 4)])) initStore 0 =
      .ok (.hash [("S:a", .integer 1), ("B:true", .integer 2), ("I:3", .integer 4)])
        initStore :=
  ⟨rfl, rfl, rfl, rfl, rfl⟩

/-- C9: the bang operator maps Boolean(true) to false, Boolean(false) to
true, Null to Null and every other operand kind to Boolean(false); in
particular `!5` is false and `!!5` is true. -/
theorem c9_bang_operator :
    evalBangOperatorExpression (.boolean true) = .boolean false ∧
    evalBangOperatorExpression (.boolean false) = .boolean true ∧
    evalBangOperatorExpression .null = .null ∧
    (∀ o : Object, (∀ b, o ≠ .boolean b) → o ≠ .null →
      evalBangOperatorExpression o = .boolean false) ∧
    Outcome.valueOf (evalE 9 (.expression (.prefixE "!" (.integerLiteral 5)))
      initStore 0) = some (.boolean false) ∧
    Outcome.valueOf (evalE 9 (.expression
      (.prefixE "!" (.prefixE "!" (.integerLiteral 5)))) initStore 0) =
      some (.boolean true) := by
  refine ⟨rfl, rfl, rfl, ?_, rfl, rfl⟩
  intro o hb hn
  cases o <;>
    first
      | rfl
      | exact absurd rfl (hb _)
      | exact absurd rfl hn

/-- C9 witness: an Integer operand maps to Boolean(false). -/
theorem c9_bang_operator_witness :
    evalBangOperatorExpression (.integer 5) = .boolean false :=
  c9_bang_operator.2.2.2.1 (.integer 5) (fun _ h => Object.noConfusion h)
    (fun h => Object.noConfusion h)

/-- C10 counterexample: in
`let a = 1; let a = if (true) { let a = 99; foobar };` the erroring
right-hand side itself rebinds `a` to 99 (the if-block runs in the current
context) before failing, so the context is not left unchanged and the
previous binding 1 is not preserved. -/
theorem c10_counterexample_rhs_mutates_context :
    Outcome.valueOf (evalE 50 (.program letErrProg) initStore 0) =
      some (.runtimeError "identifier not found: foobar") ∧
    (Outcome.storeOf (evalE 50 (.program letErrProg) initStore 0)).map
      (fun s => envGet s 0 "a") = some (some (.integer 99)) ∧
    (99 : Int) ≠ 1 :=
  ⟨rfl, rfl, by decide⟩

/-- C10 (amended): when the right-hand side of a Let evaluates to a runtime
error, the Let rule itself performs no binding and returns the error with
the store exactly as the right-hand side's evaluation left it. -/
theorem c10_let_error_returns_error_without_binding :
    ∀ (fuel : Nat) (name : String) (e : Expression) (s s' : Store) (i : Nat)
      (v : Object),
      evalE fuel (.expression e) s i = .ok v s' →
      isError v = true →
      evalE (fuel + 1) (.statement (.letS name e)) s i = .ok v s' := by
  intro fuel name e s s' i v h hv
  show evalStep (evalE fuel) (.statement (.letS name e)) s i = _
  simp [evalStep, h, hv]

/-- C10 witness: `let y = nope;` returns the unknown-identifier error and
leaves the seed store untouched. -/
theorem c10_let_error_returns_error_without_binding_witness :
    evalE 3 (.statement (.letS "y" (.identifier "nope"))) initStore 0 =
      .ok (.runtimeError "identifier not found: nope") initStore :=
  c10_let_error_returns_error_without_binding 2 "y" (.identifier "nope")
    initStore initStore 0 (.runtimeError "identifier not found: nope")
    (by rfl) (by rfl)
